import Mathlib

/-!
Verification of the pezzrr-app data-collection pipeline.

Shallow embedding of the Python sources under src/data_collectors/:
ecoflow_client.py, ecobee_client.py, ecoflow_transformer.py,
ecobee_transformer.py and collector.py. Machine reals (Python floats) are
modelled as rationals, dicts with dotted-path lookup as structures of
Option fields, and fallible operations as Option or Except. Time instants
are integers (seconds since epoch for the OAuth client, an abstract
instant passed to the transformers).
-/

namespace Pezzrr

/-! ## SHA-256 and HMAC-SHA256 over byte lists

Model of hashlib.sha256 and hmac.new(key, data, hashlib.sha256) as used by
EcoFlowClient. Bytes are naturals below 256, 32-bit words are naturals
reduced mod 2 ^ 32. -/

def w32 (n : ℕ) : ℕ := n % 4294967296

def rotr (n x : ℕ) : ℕ := w32 ((x >>> n) ||| (x <<< (32 - n)))

def shaSmall0 (x : ℕ) : ℕ := (rotr 7 x) ^^^ (rotr 18 x) ^^^ (x >>> 3)

def shaSmall1 (x : ℕ) : ℕ := (rotr 17 x) ^^^ (rotr 19 x) ^^^ (x >>> 10)

def shaBig0 (x : ℕ) : ℕ := (rotr 2 x) ^^^ (rotr 13 x) ^^^ (rotr 22 x)

def shaBig1 (x : ℕ) : ℕ := (rotr 6 x) ^^^ (rotr 11 x) ^^^ (rotr 25 x)

def shaCh (x y z : ℕ) : ℕ := (x &&& y) ^^^ ((x ^^^ 4294967295) &&& z)

def shaMaj (x y z : ℕ) : ℕ := (x &&& y) ^^^ (x &&& z) ^^^ (y &&& z)

def shaK : List ℕ :=
  [1116352408, 1899447441, 3049323471, 3921009573,
   961987163, 1508970993, 2453635748, 2870763221,
   3624381080, 310598401, 607225278, 1426881987,
   1925078388, 2162078206, 2614888103, 3248222580,
   3835390401, 4022224774, 264347078, 604807628,
   770255983, 1249150122, 1555081692, 1996064986,
   2554220882, 2821834349, 2952996808, 3210313671,
   3336571891, 3584528711, 113926993, 338241895,
   666307205, 773529912, 1294757372, 1396182291,
   1695183700, 1986661051, 2177026350, 2456956037,
   2730485921, 2820302411, 3259730800, 3345764771,
   3516065817, 3600352804, 4094571909, 275423344,
   430227734, 506948616, 659060556, 883997877,
   958139571, 1322822218, 1537002063, 1747873779,
   1955562222, 2024104815, 2227730452, 2361852424,
   2428436474, 2756734187, 3204031479, 3329325298]

structure Sha256State where
  a : ℕ
  b : ℕ
  c : ℕ
  d : ℕ
  e : ℕ
  f : ℕ
  g : ℕ
  h : ℕ

def sha256Init : Sha256State :=
  ⟨1779033703, 3144134277, 1013904242, 2773480762,
   1359893119, 2600822924, 528734635, 1541459225⟩

/-- Group a byte list into big-endian 32-bit words. -/
def bytesToWords : List ℕ → List ℕ
  | b3 :: b2 :: b1 :: b0 :: rest =>
      (b3 * 16777216 + b2 * 65536 + b1 * 256 + b0) :: bytesToWords rest
  | _ => []

def wordToBytesBE (x : ℕ) : List ℕ :=
  [x / 16777216 % 256, x / 65536 % 256, x / 256 % 256, x % 256]

/-- SHA-256 padding: append the byte 128, zero bytes to 56 mod 64, then the bit
length as 8 big-endian bytes. -/
def padMessage (msg : List ℕ) : List ℕ :=
  let len := msg.length
  let zeros := (119 - len % 64) % 64
  let bitLen := len * 8
  msg ++ [128] ++ List.replicate zeros 0 ++
    (List.range 8).map (fun i => bitLen / 2 ^ (8 * (7 - i)) % 256)

/-- Extend the 16 block words to the 64-entry message schedule. -/
def msgSchedule (w16 : List ℕ) : List ℕ :=
  (List.range 48).foldl
    (fun w _ =>
      let i := w.length
      w ++ [w32 (w.getD (i - 16) 0 + shaSmall0 (w.getD (i - 15) 0) +
                 w.getD (i - 7) 0 + shaSmall1 (w.getD (i - 2) 0))])
    w16

def compressBlock (hs : Sha256State) (block : List ℕ) : Sha256State :=
  let w := msgSchedule (bytesToWords block)
  let fin := (List.range 64).foldl
    (fun st i =>
      let t1 := w32 (st.h + shaBig1 st.e + shaCh st.e st.f st.g +
                     shaK.getD i 0 + w.getD i 0)
      let t2 := w32 (shaBig0 st.a + shaMaj st.a st.b st.c)
      ⟨w32 (t1 + t2), st.a, st.b, st.c, w32 (st.d + t1), st.e, st.f, st.g⟩)
    hs
  ⟨w32 (hs.a + fin.a), w32 (hs.b + fin.b), w32 (hs.c + fin.c),
   w32 (hs.d + fin.d), w32 (hs.e + fin.e), w32 (hs.f + fin.f),
   w32 (hs.g + fin.g), w32 (hs.h + fin.h)⟩

/-- Split into 64-byte blocks, fuel-structured so the kernel can reduce it. -/
def chunksGo : ℕ → List ℕ → List (List ℕ)
  | 0, _ => []
  | _, [] => []
  | n + 1, l@(_ :: _) => l.take 64 :: chunksGo n (l.drop 64)

def chunks64 (l : List ℕ) : List (List ℕ) := chunksGo (l.length + 1) l

def sha256 (msg : List ℕ) : List ℕ :=
  let hf := (chunks64 (padMessage msg)).foldl compressBlock sha256Init
  ([hf.a, hf.b, hf.c, hf.d, hf.e, hf.f, hf.g, hf.h].map wordToBytesBE).flatten

/-- hmac.new(key, data, hashlib.sha256).digest() with the 64-byte block size. -/
def hmacSha256 (key msg : List ℕ) : List ℕ :=
  let k0 := if key.length > 64 then sha256 key else key
  let k := k0 ++ List.replicate (64 - k0.length) 0
  sha256 ((k.map (fun b => b ^^^ 92)) ++
          sha256 ((k.map (fun b => b ^^^ 54)) ++ msg))

def strBytes (s : String) : List ℕ := s.toUTF8.toList.map (fun b => b.toNat)

def hexDigit (n : ℕ) : Char :=
  if n < 10 then Char.ofNat (48 + n) else Char.ofNat (87 + n)

/-- join of format(byte, "02x") over the digest bytes. -/
def hexOfBytes (bs : List ℕ) : String :=
  String.mk ((bs.map (fun b => [hexDigit (b / 16), hexDigit (b % 16)])).flatten)

/-! ## EcoFlow client (src/data_collectors/ecoflow_client.py)

Query parameters are association lists of strings; an empty list plays the
role of Python None or an empty dict (both falsy). -/

namespace EcoFlow

/-- Python "&".join over a list of strings. -/
def joinAmp : List String → String
  | [] => ""
  | [x] => x
  | x :: y :: rest => x ++ "&" ++ joinAmp (y :: rest)

/-- Lexicographic code-point order on char lists, the order Python uses
to compare strings. -/
def charListLt : List Char → List Char → Bool
  | [], [] => false
  | [], _ :: _ => true
  | _ :: _, [] => false
  | a :: as, b :: bs =>
    if a.toNat < b.toNat then true
    else if b.toNat < a.toNat then false
    else charListLt as bs

def strLt (a b : String) : Bool := charListLt a.toList b.toList

/-- Ordering used by Python sorted(params.items()): key first, value on ties. -/
def pairLe (a b : String × String) : Bool :=
  strLt a.1 b.1 || (a.1 == b.1 && (strLt a.2 b.2 || a.2 == b.2))

def insertPair (p : String × String) :
    List (String × String) → List (String × String)
  | [] => [p]
  | q :: rest => if pairLe p q then p :: q :: rest else q :: insertPair p rest

/-- sorted(params.items()) as an insertion sort. -/
def sortPairs (l : List (String × String)) : List (String × String) :=
  l.foldr insertPair []

def qkv (p : String × String) : String := p.1 ++ "=" ++ p.2

/-- EcoFlowClient._get_qstring. -/
def get_qstring (params : List (String × String)) : String :=
  if params = [] then "" else joinAmp ((sortPairs params).map qkv)

/-- EcoFlowClient._hmac_sha256: hex digest of HMAC-SHA256 of data under key. -/
def hmac_sha256 (data key : String) : String :=
  hexOfBytes (hmacSha256 (strBytes key) (strBytes data))

def headersDict (accessKey nonce timestamp : String) :
    List (String × String) :=
  [("accessKey", accessKey), ("nonce", nonce), ("timestamp", timestamp)]

structure SignatureResult where
  timestamp : String
  nonce : String
  signature : String

/-- EcoFlowClient._generate_signature, with the per-call nonce and
timestamp passed explicitly. -/
def generate_signature (secretKey accessKey : String)
    (params : List (String × String)) (nonce timestamp : String) :
    SignatureResult :=
  let sign_parts :=
    (if params ≠ [] then [get_qstring params] else []) ++
    [get_qstring (headersDict accessKey nonce timestamp)]
  let sign_str := joinAmp sign_parts
  { timestamp := timestamp, nonce := nonce,
    signature := hmac_sha256 sign_str secretKey }

/-- The canonical string exactly as the spec words it: sorted key=value
pairs of the query parameters, followed by sorted key=value pairs of the
accessKey/nonce/timestamp header triple, joined with the ampersand. -/
def specCanonicalString (params : List (String × String))
    (accessKey nonce timestamp : String) : String :=
  joinAmp ((sortPairs params ++ sortPairs (headersDict accessKey nonce timestamp)).map qkv)

/-- A JSON code field value: the vendor sends either a string or a number. -/
inductive JsonCode where
  | str (s : String)
  | num (n : ℤ)
deriving DecidableEq

/-- Python str() applied to the code field (str(None) is the text None). -/
def pyCodeStr : Option JsonCode → String
  | none => "None"
  | some (.str s) => s
  | some (.num n) => toString n

/-- The parsed response envelope; the data payload type is abstract. -/
structure Envelope (α : Type) where
  code : Option JsonCode
  message : Option String
  data : Option α

/-- Response handling of EcoFlowClient.make_request: None unless
str(code) is the one-character string 0, else the data object with an
empty-object default. -/
def make_request_result {α : Type} (emptyObj : α) (body : Envelope α) :
    Option α :=
  if pyCodeStr body.code = "0" then some (body.data.getD emptyObj) else none

structure SignedRequest where
  url : String
  accessKey : String
  timestamp : String
  nonce : String
  sign : String

/-- The outgoing request built by EcoFlowClient.make_request. -/
def make_request_req (baseUrl endpoint : String)
    (params : List (String × String)) (secret access nonce ts : String) :
    SignedRequest :=
  let auth := generate_signature secret access params nonce ts
  { url := baseUrl ++ endpoint, accessKey := access,
    timestamp := auth.timestamp, nonce := auth.nonce,
    sign := auth.signature }

/-- EcoFlowClient.get_device_quota: the serial goes into the URL query
string of the endpoint and make_request is called without params. -/
def get_device_quota_req (baseUrl sn secret access nonce ts : String) :
    SignedRequest :=
  make_request_req baseUrl ("/iot-open/sign/device/quota/all?sn=" ++ sn)
    [] secret access nonce ts

end EcoFlow

/-! ## EcoFlow transformers (src/data_collectors/ecoflow_transformer.py)

The raw quota payload is a flat dict keyed by dotted paths; it is modelled
as a structure with one field per path the transformer reads. Option none
stands for an absent key. The hall1Watt array uses the empty list for the
absent key, matching the default of the Python lookup. Readings carry an
abstract timestamp ts passed in for datetime.now(). -/

namespace EcoFlowT

structure QuotaData where
  /-- loadInfo.hall1Watt with default empty list. -/
  hall1Watt : List ℚ
  /-- backupInfo.chWatt. -/
  backupChWatt : Option (List ℚ)
  /-- wattInfo.chWatt, the fallback key for backupInfo.chWatt. -/
  wattChWatt : Option (List ℚ)
  /-- pd303_mc.backupIncreInfo.curDischargeSoc. -/
  socPrimary : Option ℚ
  /-- backupIncreInfo.curDischargeSoc, fallback key. -/
  socFallback : Option ℚ
  /-- pd303_mc.backupIncreInfo.EnergyNInfo.outputPower for unit N. -/
  energyOutputPower : ℕ → Option ℚ
  /-- pd303_mc.gridSta. -/
  gridSta : Option String
  /-- pd303_mc.epsModeInfo.eps, an integer fed to bool(). -/
  epsMode : Option ℤ
  /-- pd303_mc.gridFreq. -/
  gridFreq : Option ℚ
  /-- pd303_mc.pvPower. -/
  pvPower : Option ℚ
  /-- pd303_mc.backupIncreInfo.backupDischargeRmainBatCap. -/
  capacityPrimary : Option ℚ
  /-- backupIncreInfo.backupDischargeRmainBatCap, fallback key. -/
  capacityFallback : Option ℚ
  /-- pd303_mc.chargeWattPower. -/
  chargePrimary : Option ℚ
  /-- chargeWattPower, fallback key. -/
  chargeFallback : Option ℚ
  /-- pd303_mc.backupIncreInfo.chNInfo.ctrlSta for unit N, default empty. -/
  ctrlSta : ℕ → String
  /-- pd303_mc.loadIncreInfo.hall1IncreInfo.chNSta.loadSta, default empty. -/
  loadSta : ℕ → String

structure PanelRow where
  device_id : ℕ
  home_id : ℕ
  ts : ℤ
  grid_power_w : Option ℚ
  grid_frequency_hz : Option ℚ
  solar_power_w : Option ℚ
  battery_power_w : Option ℚ
  battery_soc_pct : Option ℚ
  home_load_w : Option ℚ
  grid_status : Option String
  eps_mode_active : Option Bool

/-- The per-unit battery output power summed over the three energy units,
each key defaulting to 0 — the loop for i in range(1, 4). -/
def panelBatterySum (d : QuotaData) : ℚ :=
  (((List.range 3).map (fun i => (d.energyOutputPower (i + 1)).getD 0)).sum)

/-- transform_panel_reading. -/
def transform_panel_reading (d : QuotaData) (device_id home_id : ℕ)
    (ts : ℤ) : PanelRow :=
  let backup_watt := d.backupChWatt.getD (d.wattChWatt.getD [])
  let home_load := if d.hall1Watt ≠ [] then some d.hall1Watt.sum else none
  let grid_power := if backup_watt ≠ [] then some backup_watt.sum else none
  let battery_soc :=
    match d.socPrimary with
    | some v => some v
    | none => d.socFallback
  let battery_power0 := panelBatterySum d
  let battery_power :=
    if battery_power0 ≠ 0 then some (-battery_power0) else none
  { device_id := device_id, home_id := home_id, ts := ts,
    grid_power_w := grid_power, grid_frequency_hz := d.gridFreq,
    solar_power_w := d.pvPower, battery_power_w := battery_power,
    battery_soc_pct := battery_soc, home_load_w := home_load,
    grid_status := d.gridSta,
    eps_mode_active := d.epsMode.map (fun v => v ≠ 0) }

structure CircuitRow where
  circuit_id : ℕ
  device_id : ℕ
  home_id : ℕ
  ts : ℤ
  power_w : ℚ
  is_enabled : Bool
deriving DecidableEq

/-- The row built for one known channel inside the circuit loop. -/
def circuitRowFor (d : QuotaData) (device_id home_id : ℕ) (ts : ℤ)
    (ch_num cid : ℕ) : CircuitRow :=
  { circuit_id := cid, device_id := device_id, home_id := home_id, ts := ts,
    power_w := d.hall1Watt.getD ch_num 0,
    is_enabled := d.loadSta (ch_num + 1) == "LOAD_CH_POWER_ON" }

/-- transform_circuit_readings: the for loop over channels 0 to 11,
appending one row per channel whose circuit id is known. -/
def transform_circuit_readings (d : QuotaData) (device_id home_id : ℕ)
    (ts : ℤ) (circuit_map : ℕ → Option ℕ) : List CircuitRow :=
  (List.range 12).foldl
    (fun rows ch_num =>
      match circuit_map ch_num with
      | none => rows
      | some cid => rows ++ [circuitRowFor d device_id home_id ts ch_num cid])
    []

structure BatteryRow where
  device_id : ℕ
  home_id : ℕ
  ts : ℤ
  soc_pct : Option ℚ
  capacity_wh : Option ℚ
  power_w : ℚ
  ac_in_power_w : ℚ
  ac_out_power_w : ℚ
  status : String

/-- Does the first list start the second one? -/
def startsWithList : List Char → List Char → Bool
  | [], _ => true
  | _ :: _, [] => false
  | a :: as, b :: bs => a == b && startsWithList as bs

def infixList (needle : List Char) : List Char → Bool
  | [] => needle == []
  | c :: rest => startsWithList needle (c :: rest) || infixList needle rest

/-- Python substring containment: needle in hay. -/
def strContains (hay needle : String) : Bool :=
  infixList needle.toList hay.toList

/-- The status loop of transform_battery_reading: scan the three control
state strings, a DISCHARGE match wins and breaks, a CHARGE match records
charging and keeps scanning. -/
def batteryStatusLoop (ctrl : ℕ → String) (acc : String) :
    List ℕ → String
  | [] => acc
  | i :: rest =>
    if strContains (ctrl i) "DISCHARGE" then "discharging"
    else batteryStatusLoop ctrl
      (if strContains (ctrl i) "CHARGE" then "charging" else acc) rest

/-- The output power read for the battery row: Energy2 only, default 0. -/
def batteryVendorOutput (d : QuotaData) : ℚ :=
  (d.energyOutputPower 2).getD 0

/-- transform_battery_reading. -/
def transform_battery_reading (d : QuotaData) (device_id home_id : ℕ)
    (ts : ℤ) : BatteryRow :=
  let soc :=
    match d.socPrimary with
    | some v => some v
    | none => d.socFallback
  let capacity :=
    match d.capacityPrimary with
    | some v => some v
    | none => d.capacityFallback
  let output_power := batteryVendorOutput d
  let power := if output_power ≠ 0 then -output_power else 0
  let ac_in :=
    match d.chargePrimary with
    | some v => v
    | none => d.chargeFallback.getD 0
  let backup_watt := d.backupChWatt.getD (d.wattChWatt.getD [])
  let ac_out := if backup_watt ≠ [] then backup_watt.sum else 0
  { device_id := device_id, home_id := home_id, ts := ts,
    soc_pct := soc, capacity_wh := capacity, power_w := power,
    ac_in_power_w := ac_in, ac_out_power_w := ac_out,
    status := batteryStatusLoop d.ctrlSta "standby" [1, 2, 3] }

end EcoFlowT

/-! ## Ecobee client (src/data_collectors/ecobee_client.py)

Token state with instants as integer seconds since epoch; the 5-minute
margin is 300 seconds. A successful refresh response is passed in as data;
the observable effects of get_thermostat_data are returned as an event
trace so the number and position of refreshes can be stated. -/

namespace Ecobee

structure TokenState where
  access_token : Option String
  refresh_token : Option String
  expires_at : Option ℤ
deriving DecidableEq

structure RefreshResponse where
  access_token : String
  refresh_token : String
  expires_in : ℤ
deriving DecidableEq

inductive Ev where
  | refreshCall
  | httpGet
deriving DecidableEq

/-- EcobeeClient._refresh_access_token on a successful response: install
the new pair and the absolute expiry now plus expires_in. -/
def refresh_access_token (now : ℤ) (r : RefreshResponse)
    (_s : TokenState) : TokenState :=
  { access_token := some r.access_token,
    refresh_token := some r.refresh_token,
    expires_at := some (now + r.expires_in) }

/-- The refresh condition of _ensure_valid_token: access token missing,
expiry missing, or now at or past expiry minus 5 minutes. -/
def needsRefresh (now : ℤ) (s : TokenState) : Bool :=
  match s.access_token, s.expires_at with
  | none, _ => true
  | _, none => true
  | some _, some e => decide (now ≥ e - 300)

/-- EcobeeClient._ensure_valid_token: raises without a refresh token, else
refreshes exactly when needsRefresh holds. -/
def ensure_valid_token (now : ℤ) (s : TokenState) (r : RefreshResponse) :
    Except String (TokenState × List Ev) :=
  if s.refresh_token = none then
    .error "No refresh token. Run start_pin_auth() first."
  else if needsRefresh now s then
    .ok (refresh_access_token now r s, [.refreshCall])
  else
    .ok (s, [])

/-- EcobeeClient.get_thermostat_data: ensure a valid token first, then
issue the HTTP GET. -/
def get_thermostat_data (now : ℤ) (s : TokenState) (r : RefreshResponse) :
    Except String (TokenState × List Ev) :=
  match ensure_valid_token now s r with
  | .error e => .error e
  | .ok (s2, evs) => .ok (s2, evs ++ [.httpGet])

end Ecobee

/-! ## Ecobee transformer (src/data_collectors/ecobee_transformer.py) -/

namespace EcobeeT

/-- Round to the nearest integer, ties to even — the rounding of Python
round(). -/
def roundHalfEven (q : ℚ) : ℤ :=
  let f := ⌊q⌋
  let frac := q - f
  if frac < 1 / 2 then f
  else if frac > 1 / 2 then f + 1
  else if f % 2 = 0 then f else f + 1

/-- Python round(x, 2). -/
def pyRound2 (q : ℚ) : ℚ := (roundHalfEven (q * 100) : ℚ) / 100

/-- _f_to_c: tenths of Fahrenheit to Celsius, two decimals, None maps to
None. -/
def f_to_c : Option ℚ → Option ℚ
  | none => none
  | some v => some (pyRound2 ((v / 10 - 32) * 5 / 9))

/-- The runtime fields of a thermostat payload that the dedup fingerprint
and the loop inspect. -/
structure Thermo where
  actualTemperature : Option ℚ
  actualHumidity : Option ℚ
  desiredHeat : Option ℚ
  desiredCool : Option ℚ
  lastStatusModified : Option String
deriving DecidableEq

abbrev DedupKey :=
  Option ℚ × Option ℚ × Option ℚ × Option ℚ × Option String

/-- dedup_key: the five raw runtime fields as a tuple. -/
def dedup_key (t : Thermo) : DedupKey :=
  (t.actualTemperature, t.actualHumidity, t.desiredHeat, t.desiredCool,
   t.lastStatusModified)

end EcobeeT

/-! ## Collector orchestrator (src/data_collectors/collector.py)

The database is a pure lookup environment; identifier lookups return an
optional id exactly like the gateway helpers. Python truthiness of an id
is false for None and for 0. -/

namespace Collector

structure Db where
  homes : String → Option ℕ
  devices : String → Option ℕ
  devicesByApi : String → Option ℕ
  circuits : ℕ → ℕ → Option ℕ

def truthy : Option ℕ → Bool
  | none => false
  | some n => n != 0

structure EcoflowDeviceCfg where
  home_name : String
  device_sn : String

structure DeviceInfo where
  home_id : ℕ
  panel_device_id : ℕ
  battery_device_id : ℕ
  circuit_map : ℕ → Option ℕ
  label : String

/-- The per-device startup resolution of _ecoflow_loop (lines 69 to 96):
resolve home and panel ids, fall back to the panel id when the battery
serial is unknown, and skip the device when home or panel is missing. -/
def resolveEcoflowDevice (db : Db) (cfg : EcoflowDeviceCfg) :
    Option DeviceInfo :=
  let home_id := db.homes cfg.home_name
  let panel_device_id := db.devices cfg.device_sn
  let battery_device_id :=
    match db.devices (cfg.device_sn ++ "-BAT") with
    | none => panel_device_id
    | some b => some b
  let circuit_map :=
    match panel_device_id with
    | some pid => if pid != 0 then db.circuits pid else fun _ => none
    | none => fun _ => none
  if truthy home_id && truthy panel_device_id then
    some { home_id := home_id.getD 0,
           panel_device_id := panel_device_id.getD 0,
           battery_device_id := battery_device_id.getD 0,
           circuit_map := circuit_map,
           label := cfg.home_name ++ "/" ++ cfg.device_sn }
  else none

/-- The startup of the whole EcoFlow loop: sources that fail to resolve
are dropped, the rest are kept. -/
def ecoflowStartup (db : Db) (cfgs : List EcoflowDeviceCfg) :
    List DeviceInfo :=
  cfgs.filterMap (resolveEcoflowDevice db)

/-- The three groups of rows written for one device in one EcoFlow tick
(loop body lines 113 to 127): panel row and circuit rows under the panel
device id, battery row under the battery device id. -/
def ecoflow_tick (info : DeviceInfo) (d : EcoFlowT.QuotaData) (ts : ℤ) :
    EcoFlowT.PanelRow × List EcoFlowT.CircuitRow × EcoFlowT.BatteryRow :=
  (EcoFlowT.transform_panel_reading d info.panel_device_id info.home_id ts,
   EcoFlowT.transform_circuit_readings d info.panel_device_id info.home_id
     ts info.circuit_map,
   EcoFlowT.transform_battery_reading d info.battery_device_id
     info.home_id ts)

/-- The startup resolution of _ecobee_loop (lines 156 to 163): home by the
fixed name, device by serial with an api-identifier fallback, and a bare
return when either is missing. -/
def resolveEcobee (db : Db) (device_api_id : String) : Option (ℕ × ℕ) :=
  let home_id := db.homes "test_home"
  let device_id :=
    match db.devices device_api_id with
    | none => db.devicesByApi device_api_id
    | some d => some d
  if truthy home_id && truthy device_id then
    some (home_id.getD 0, device_id.getD 0)
  else none

/-- One Ecobee tick as seen by the loop: the fetched thermostat (none for
a missing or failed poll) and whether the insert statement succeeds. -/
structure EcobeeTick where
  fetch : Option EcobeeT.Thermo
  insertOk : Bool

/-- The body of the Ecobee polling loop (lines 168 to 196): skip on no
data, skip when the fingerprint is unchanged, otherwise insert and only
then store the new fingerprint; a failing insert raises into the except
block and leaves the fingerprint untouched. Returns the number of rows
inserted this tick and the stored fingerprint after the tick. -/
def ecobee_cycle (last : Option EcobeeT.DedupKey) (tick : EcobeeTick) :
    ℕ × Option EcobeeT.DedupKey :=
  match tick.fetch with
  | none => (0, last)
  | some t =>
    let key := EcobeeT.dedup_key t
    if some key = last then (0, last)
    else if tick.insertOk then (1, some key)
    else (0, last)

/-- Iterated Ecobee ticks: total inserted rows and final fingerprint. -/
def ecobee_run (last : Option EcobeeT.DedupKey) :
    List EcobeeTick → ℕ × Option EcobeeT.DedupKey
  | [] => (0, last)
  | tick :: rest =>
    let step := ecobee_cycle last tick
    let further := ecobee_run step.2 rest
    (step.1 + further.1, further.2)

/-- The whole Ecobee source: number of rows the loop inserts, zero when
startup resolution fails. -/
def ecobee_source_inserts (db : Db) (device_api_id : String)
    (ticks : List EcobeeTick) : ℕ :=
  match resolveEcobee db device_api_id with
  | none => 0
  | some _ => (ecobee_run none ticks).1

end Collector

/-! ## Sample payloads used by witnesses and counterexamples -/

/-- A quota payload with every key absent. -/
def dZero : EcoFlowT.QuotaData :=
  ⟨[], none, none, none, none, fun _ => none, none, none, none, none,
   none, none, none, none, fun _ => "", fun _ => ""⟩

/-- A quota payload with a full 12-entry load array, battery output on
unit 2, and control states on units 1 and 3. -/
def dSample : EcoFlowT.QuotaData :=
  ⟨[100, 5, 7, 0, 0, 9, 0, 0, 0, 0, 0, 50], some [20, 30], none,
   some 55, none,
   (fun i => if i = 2 then some 500 else none),
   some "GRID_ON", some 1, some 60, some 1200, some 7000, none,
   some 240, none,
   (fun i => if i = 1 then "BATTERY_CH_DISCHARGE" else ""),
   (fun i => if i = 1 then "LOAD_CH_POWER_ON" else "")⟩

def cmapSample : ℕ → Option ℕ :=
  fun n => if n = 0 then some 501 else if n = 2 then some 502
           else if n = 5 then some 505 else none

def thermoA : EcobeeT.Thermo :=
  ⟨some 720, some 45, some 680, some 760, some "2025-01-01 00:00:00"⟩

def thermoB : EcobeeT.Thermo :=
  ⟨some 724, some 45, some 680, some 760, some "2025-01-01 00:05:00"⟩

/-- A database with the home and the panel device seeded but no battery
device row for the derived battery serial. -/
def dbNoBat : Collector.Db :=
  { homes := fun h => if h = "h1" then some 1 else none,
    devices := fun s => if s = "SN1" then some 2 else none,
    devicesByApi := fun _ => none,
    circuits := fun _ _ => none }

/-- A fully seeded database: home, panel device, battery device. -/
def dbFull : Collector.Db :=
  { homes := fun h => if h = "h1" then some 1 else none,
    devices := fun s =>
      if s = "SN1" then some 2 else if s = "SN1-BAT" then some 3 else none,
    devicesByApi := fun _ => none,
    circuits := fun _ _ => none }

def cfg1 : Collector.EcoflowDeviceCfg := ⟨"h1", "SN1"⟩

/-- The device info that startup resolution yields on dbFull for cfg1. -/
def infoFull : Collector.DeviceInfo :=
  ⟨1, 2, 3, dbFull.circuits 2, "h1" ++ "/" ++ "SN1"⟩

/-! ## Helper lemmas -/

theorem batteryStatusLoop_eq (ctrl : ℕ → String) (l : List ℕ) (acc : String) :
    EcoFlowT.batteryStatusLoop ctrl acc l =
      (if l.any (fun i => EcoFlowT.strContains (ctrl i) "DISCHARGE") then
        "discharging"
      else if l.any (fun i => EcoFlowT.strContains (ctrl i) "CHARGE") then
        "charging"
      else acc) := by
  induction l generalizing acc with
  | nil => simp [EcoFlowT.batteryStatusLoop]
  | cons i rest ih =>
    simp only [EcoFlowT.batteryStatusLoop, List.any_cons]
    cases hd : EcoFlowT.strContains (ctrl i) "DISCHARGE" with
    | true => simp [hd]
    | false =>
      by_cases hc : EcoFlowT.strContains (ctrl i) "CHARGE" = true
      · simp only [hc, Bool.false_or, Bool.true_or, if_true, ih,
          if_neg Bool.false_ne_true]
        cases rest.any (fun i => EcoFlowT.strContains (ctrl i) "DISCHARGE") <;>
          simp
      · rw [Bool.not_eq_true] at hc
        simp [hc, ih]

theorem filterMap_length_eq {α β : Type} (f : α → Option β) :
    ∀ l : List α,
      (l.filterMap f).length = (l.filter (fun a => (f a).isSome)).length
  | [] => rfl
  | a :: l => by
    cases h : f a <;>
      simp [h, List.filterMap_cons, filterMap_length_eq f l]

theorem circuit_foldl_eq (d : EcoFlowT.QuotaData) (dev home : ℕ) (ts : ℤ)
    (cmap : ℕ → Option ℕ) :
    ∀ (l : List ℕ) (acc : List EcoFlowT.CircuitRow),
      (l.foldl
        (fun rows ch_num =>
          match cmap ch_num with
          | none => rows
          | some cid =>
              rows ++ [EcoFlowT.circuitRowFor d dev home ts ch_num cid])
        acc)
      = acc ++ l.filterMap
          (fun ch => (cmap ch).map (EcoFlowT.circuitRowFor d dev home ts ch))
  | [], acc => by simp
  | ch :: rest, acc => by
    cases h : cmap ch with
    | none =>
      simp [h, List.filterMap_cons, circuit_foldl_eq d dev home ts cmap rest acc]
    | some cid =>
      simp [h, List.filterMap_cons,
        circuit_foldl_eq d dev home ts cmap rest
          (acc ++ [EcoFlowT.circuitRowFor d dev home ts ch cid])]

theorem joinAmp_append :
    ∀ (a b : List String), a ≠ [] → b ≠ [] →
      EcoFlow.joinAmp (a ++ b)
        = EcoFlow.joinAmp a ++ "&" ++ EcoFlow.joinAmp b
  | [], _, ha, _ => absurd rfl ha
  | [x], b, _, hb => by
    cases b with
    | nil => exact absurd rfl hb
    | cons y bs => rfl
  | x :: y :: rest, b, _, hb => by
    have ih := joinAmp_append (y :: rest) b (by simp) hb
    calc EcoFlow.joinAmp ((x :: y :: rest) ++ b)
        = x ++ "&" ++ EcoFlow.joinAmp ((y :: rest) ++ b) := rfl
      _ = x ++ "&" ++ (EcoFlow.joinAmp (y :: rest) ++ "&" ++
            EcoFlow.joinAmp b) := by rw [ih]
      _ = (x ++ "&" ++ EcoFlow.joinAmp (y :: rest)) ++ "&" ++
            EcoFlow.joinAmp b := by simp [String.append_assoc]
      _ = EcoFlow.joinAmp (x :: y :: rest) ++ "&" ++ EcoFlow.joinAmp b := rfl

theorem insertPair_length (p : String × String) :
    ∀ l : List (String × String),
      (EcoFlow.insertPair p l).length = l.length + 1
  | [] => rfl
  | q :: rest => by
    simp only [EcoFlow.insertPair]
    split <;> simp [insertPair_length p rest]

theorem sortPairs_length (l : List (String × String)) :
    (EcoFlow.sortPairs l).length = l.length := by
  induction l with
  | nil => rfl
  | cons p rest ih =>
    simp [EcoFlow.sortPairs, List.foldr_cons, insertPair_length,
      ih.symm ▸ insertPair_length p (EcoFlow.sortPairs rest)]
    simpa [EcoFlow.sortPairs] using ih

/-- The signed string assembled by _generate_signature equals the
canonical string as the spec describes it. -/
theorem sign_str_eq_canonical (params : List (String × String))
    (access nonce ts : String) :
    EcoFlow.joinAmp
      ((if params ≠ [] then [EcoFlow.get_qstring params] else []) ++
       [EcoFlow.get_qstring (EcoFlow.headersDict access nonce ts)])
      = EcoFlow.specCanonicalString params access nonce ts := by
  cases params with
  | nil =>
    simp only [ne_eq, not_true_eq_false, if_false, List.nil_append,
      EcoFlow.specCanonicalString, EcoFlow.sortPairs, List.foldr_nil]
    show EcoFlow.get_qstring (EcoFlow.headersDict access nonce ts) = _
    rw [EcoFlow.get_qstring, if_neg (by simp [EcoFlow.headersDict])]
    rfl
  | cons p ps =>
    have hs1 : (EcoFlow.sortPairs (p :: ps)).map EcoFlow.qkv ≠ [] := by
      apply List.ne_nil_of_length_pos
      rw [List.length_map, sortPairs_length]
      simp
    have hs2 : (EcoFlow.sortPairs
        (EcoFlow.headersDict access nonce ts)).map EcoFlow.qkv ≠ [] := by
      apply List.ne_nil_of_length_pos
      rw [List.length_map, sortPairs_length]
      simp [EcoFlow.headersDict]
    rw [if_pos (by simp : (p :: ps : List (String × String)) ≠ [])]
    calc EcoFlow.joinAmp [EcoFlow.get_qstring (p :: ps),
            EcoFlow.get_qstring (EcoFlow.headersDict access nonce ts)]
        = EcoFlow.get_qstring (p :: ps) ++ "&" ++
            EcoFlow.get_qstring (EcoFlow.headersDict access nonce ts) := rfl
      _ = EcoFlow.joinAmp ((EcoFlow.sortPairs (p :: ps)).map EcoFlow.qkv)
            ++ "&" ++
          EcoFlow.joinAmp ((EcoFlow.sortPairs
            (EcoFlow.headersDict access nonce ts)).map EcoFlow.qkv) := by
            rw [EcoFlow.get_qstring, if_neg (by simp),
              EcoFlow.get_qstring, if_neg (by simp [EcoFlow.headersDict])]
      _ = EcoFlow.joinAmp
            ((EcoFlow.sortPairs (p :: ps)).map EcoFlow.qkv ++
             (EcoFlow.sortPairs
               (EcoFlow.headersDict access nonce ts)).map EcoFlow.qkv) :=
            (joinAmp_append _ _ hs1 hs2).symm
      _ = EcoFlow.specCanonicalString (p :: ps) access nonce ts := by
            rw [EcoFlow.specCanonicalString, List.map_append]

/-! ## Claims -/

/-- C7: the battery transform classifies status by scanning the three
energy-unit control-state strings: any DISCHARGE substring yields
discharging (and the scan breaks there), otherwise any CHARGE substring
yields charging, otherwise standby. -/
theorem battery_status_classification (d : EcoFlowT.QuotaData)
    (dev home : ℕ) (ts : ℤ) :
    (EcoFlowT.transform_battery_reading d dev home ts).status =
      (if [1, 2, 3].any
            (fun i => EcoFlowT.strContains (d.ctrlSta i) "DISCHARGE") then
        "discharging"
      else if [1, 2, 3].any
            (fun i => EcoFlowT.strContains (d.ctrlSta i) "CHARGE") then
        "charging"
      else "standby") :=
  batteryStatusLoop_eq d.ctrlSta [1, 2, 3] "standby"

/-- C8: the temperature conversion maps a present tenths-of-Fahrenheit
value v to (v / 10 - 32) * 5 / 9 rounded to two decimals, sends 720 to
22.22, and maps an absent value to an absent result, never to zero. -/
theorem f_to_c_spec :
    EcobeeT.f_to_c none = none ∧
    EcobeeT.f_to_c none ≠ some 0 ∧
    (∀ v : ℚ, EcobeeT.f_to_c (some v)
      = some (EcobeeT.pyRound2 ((v / 10 - 32) * 5 / 9))) ∧
    EcobeeT.f_to_c (some 720) = some (1111 / 50) := by
  refine ⟨rfl, by decide, fun v => rfl, ?_⟩
  show some (EcobeeT.pyRound2 ((720 / 10 - 32) * 5 / 9)) = some (1111 / 50)
  norm_num [EcobeeT.pyRound2, EcobeeT.roundHalfEven]

/-- C10: the stored dedup fingerprint moves only on a successful insert;
a tick whose insert fails, or that fetched nothing, leaves the previous
fingerprint in place, and the same reading is inserted on the next tick. -/
theorem dedup_fingerprint_update_after_insert :
    (∀ (last : Option EcobeeT.DedupKey) (tick : Collector.EcobeeTick),
      tick.insertOk = false → Collector.ecobee_cycle last tick = (0, last)) ∧
    (∀ (last : Option EcobeeT.DedupKey) (tick : Collector.EcobeeTick),
      (Collector.ecobee_cycle last tick).2 = last ∨
        ((Collector.ecobee_cycle last tick).1 = 1 ∧ tick.insertOk = true ∧
         ∃ t, tick.fetch = some t ∧
           (Collector.ecobee_cycle last tick).2
             = some (EcobeeT.dedup_key t))) ∧
    (∀ (last : Option EcobeeT.DedupKey) (t : EcobeeT.Thermo),
      last ≠ some (EcobeeT.dedup_key t) →
        Collector.ecobee_run last [⟨some t, false⟩, ⟨some t, true⟩]
          = (1, some (EcobeeT.dedup_key t))) := by
  refine ⟨?_, ?_, ?_⟩
  · intro last tick hfail
    cases h : tick.fetch with
    | none => simp [Collector.ecobee_cycle, h]
    | some t =>
      by_cases hk : some (EcobeeT.dedup_key t) = last <;>
        simp [Collector.ecobee_cycle, h, hk, hfail]
  · intro last tick
    cases h : tick.fetch with
    | none => left; simp [Collector.ecobee_cycle, h]
    | some t =>
      by_cases hk : some (EcobeeT.dedup_key t) = last
      · left; simp [Collector.ecobee_cycle, h, hk]
      · cases hins : tick.insertOk with
        | false => left; simp [Collector.ecobee_cycle, h, hk, hins]
        | true =>
          right
          refine ⟨?_, rfl, t, rfl, ?_⟩ <;>
            simp [Collector.ecobee_cycle, h, hk, hins]
  · intro last t hne
    have hk : ¬ some (EcobeeT.dedup_key t) = last := fun hc => hne hc.symm
    simp [Collector.ecobee_run, Collector.ecobee_cycle, hk]

/-- Witness for C10 at a concrete thermostat payload: a failed insert
leaves the fingerprint empty and the retry on the next tick inserts. -/
theorem dedup_fingerprint_update_after_insert_witness :
    Collector.ecobee_run none [⟨some thermoA, false⟩, ⟨some thermoA, true⟩]
      = (1, some (EcobeeT.dedup_key thermoA)) :=
  dedup_fingerprint_update_after_insert.2.2 none thermoA (by decide)

/-- C5 counterexample: when the fingerprint stored before the pair already
equals the fingerprint shared by two consecutive polls (here after an
earlier poll of the same payload), the pair inserts zero rows, not the
exactly one row the claim requires of every equal-fingerprint pair. -/
theorem dedup_pair_counterexample :
    (Collector.ecobee_run none [⟨some thermoA, true⟩]).2
      = some (EcobeeT.dedup_key thermoA) ∧
    (Collector.ecobee_run (some (EcobeeT.dedup_key thermoA))
        [⟨some thermoA, true⟩, ⟨some thermoA, true⟩]).1 = 0 ∧
    (0 : ℕ) ≠ 1 := by
  refine ⟨by decide, by decide, by decide⟩

/-- C5 as amended: for a pair of consecutive successful polls whose first
fingerprint differs from the stored one (as on the first poll after
startup), equal fingerprints insert exactly one row across the pair and
differing fingerprints insert one row per poll. -/
theorem dedup_pair_inserts (last : Option EcobeeT.DedupKey)
    (t1 t2 : EcobeeT.Thermo) (h : last ≠ some (EcobeeT.dedup_key t1)) :
    (EcobeeT.dedup_key t1 = EcobeeT.dedup_key t2 →
      (Collector.ecobee_run last [⟨some t1, true⟩, ⟨some t2, true⟩]).1 = 1) ∧
    (EcobeeT.dedup_key t1 ≠ EcobeeT.dedup_key t2 →
      (Collector.ecobee_run last [⟨some t1, true⟩, ⟨some t2, true⟩]).1 = 2) := by
  have hk : ¬ some (EcobeeT.dedup_key t1) = last := fun hc => h hc.symm
  constructor
  · intro heq
    have h2 : some (EcobeeT.dedup_key t2) = some (EcobeeT.dedup_key t1) :=
      congrArg some heq.symm
    simp [Collector.ecobee_run, Collector.ecobee_cycle, hk, h2]
  · intro hne
    have hk2 : ¬ some (EcobeeT.dedup_key t2) = some (EcobeeT.dedup_key t1) :=
      fun hc => hne (Option.some.inj hc).symm
    simp [Collector.ecobee_run, Collector.ecobee_cycle, hk, hk2]

/-- Witness for C5: from the empty startup state, two polls of the same
payload insert one row, and two polls of different payloads insert two. -/
theorem dedup_pair_inserts_witness :
    (Collector.ecobee_run none
      [⟨some thermoA, true⟩, ⟨some thermoA, true⟩]).1 = 1 ∧
    (Collector.ecobee_run none
      [⟨some thermoA, true⟩, ⟨some thermoB, true⟩]).1 = 2 :=
  ⟨(dedup_pair_inserts none thermoA thermoA (by decide)).1 rfl,
   (dedup_pair_inserts none thermoA thermoB (by decide)).2 (by decide)⟩

/-- C6: the circuit transform emits exactly one row per channel 0 to 11
with a known circuit identifier — the rows are precisely the per-channel
rows in channel order — and each emitted row carries the load-wattage
array element at its channel index whenever that index is in range. -/
theorem circuit_rows_per_channel (d : EcoFlowT.QuotaData) (dev home : ℕ)
    (ts : ℤ) (cmap : ℕ → Option ℕ) :
    EcoFlowT.transform_circuit_readings d dev home ts cmap
      = (List.range 12).filterMap
          (fun ch => (cmap ch).map (EcoFlowT.circuitRowFor d dev home ts ch)) ∧
    (EcoFlowT.transform_circuit_readings d dev home ts cmap).length
      = ((List.range 12).filter (fun ch => (cmap ch).isSome)).length ∧
    (∀ ch cid, ch < 12 → cmap ch = some cid →
      EcoFlowT.circuitRowFor d dev home ts ch cid
        ∈ EcoFlowT.transform_circuit_readings d dev home ts cmap ∧
      ∀ hlt : ch < d.hall1Watt.length,
        (EcoFlowT.circuitRowFor d dev home ts ch cid).power_w
          = d.hall1Watt.get ⟨ch, hlt⟩) := by
  have hrows := circuit_foldl_eq d dev home ts cmap (List.range 12) []
  refine ⟨?_, ?_, ?_⟩
  · simpa [EcoFlowT.transform_circuit_readings] using hrows
  · rw [show EcoFlowT.transform_circuit_readings d dev home ts cmap
        = (List.range 12).filterMap
            (fun ch => (cmap ch).map (EcoFlowT.circuitRowFor d dev home ts ch))
      from by simpa [EcoFlowT.transform_circuit_readings] using hrows]
    rw [filterMap_length_eq]
    congr 1
    apply List.filter_congr
    intro ch _
    cases cmap ch <;> simp
  · intro ch cid hch hcm
    constructor
    · rw [show EcoFlowT.transform_circuit_readings d dev home ts cmap
          = (List.range 12).filterMap
              (fun ch => (cmap ch).map (EcoFlowT.circuitRowFor d dev home ts ch))
        from by simpa [EcoFlowT.transform_circuit_readings] using hrows]
      rw [List.mem_filterMap]
      exact ⟨ch, List.mem_range.mpr hch, by rw [hcm]; rfl⟩
    · intro hlt
      simp [EcoFlowT.circuitRowFor, List.getD_eq_getElem?_getD,
        List.getElem?_eq_getElem hlt, List.get_eq_getElem]

/-- Witness for C6 at the in-particular instance of the claim: a 12-entry
load array and a map covering channels 0, 2 and 5 emit exactly 3 rows
carrying elements 100, 7 and 9. -/
theorem circuit_rows_per_channel_witness :
    (EcoFlowT.transform_circuit_readings dSample 7 3 0 cmapSample).length = 3 ∧
    EcoFlowT.circuitRowFor dSample 7 3 0 0 501
      ∈ EcoFlowT.transform_circuit_readings dSample 7 3 0 cmapSample ∧
    EcoFlowT.circuitRowFor dSample 7 3 0 5 505
      ∈ EcoFlowT.transform_circuit_readings dSample 7 3 0 cmapSample ∧
    (EcoFlowT.circuitRowFor dSample 7 3 0 0 501).power_w = 100 ∧
    (EcoFlowT.circuitRowFor dSample 7 3 0 2 502).power_w = 7 ∧
    (EcoFlowT.circuitRowFor dSample 7 3 0 5 505).power_w = 9 :=
  ⟨((circuit_rows_per_channel dSample 7 3 0 cmapSample).2.1).trans (by decide),
   ((circuit_rows_per_channel dSample 7 3 0 cmapSample).2.2 0 501
      (by decide) rfl).1,
   ((circuit_rows_per_channel dSample 7 3 0 cmapSample).2.2 5 505
      (by decide) rfl).1,
   by decide, by decide, by decide⟩

/-- C9 counterexample: a payload whose vendor-reported summed output power
is zero persists null in the panel row, while the negation of the
vendor-reported value is zero — so the persisted field is not always the
negation of the vendor value. -/
theorem battery_sign_counterexample :
    EcoFlowT.panelBatterySum dZero = 0 ∧
    (EcoFlowT.transform_panel_reading dZero 1 2 0).battery_power_w = none ∧
    (EcoFlowT.transform_panel_reading dZero 1 2 0).battery_power_w
      ≠ some (-(EcoFlowT.panelBatterySum dZero)) := by
  have hsum : EcoFlowT.panelBatterySum dZero = 0 := by
    simp [EcoFlowT.panelBatterySum, dZero]
  have hpanel : (EcoFlowT.transform_panel_reading dZero 1 2 0).battery_power_w
      = if EcoFlowT.panelBatterySum dZero ≠ 0
        then some (-(EcoFlowT.panelBatterySum dZero)) else none := rfl
  refine ⟨hsum, ?_, ?_⟩ <;> simp [hpanel, hsum]

/-- C9 as amended: whenever the vendor-reported output power (summed over
the energy units for the panel row, the Energy2 unit for the battery row)
is nonzero, the persisted power is its negation — vendor-positive persists
negative and vendor-negative persists positive; a zero vendor value
persists as null in the panel row and as zero in the battery row. -/
theorem battery_power_sign (d : EcoFlowT.QuotaData) (dev home : ℕ)
    (ts : ℤ) :
    (EcoFlowT.panelBatterySum d ≠ 0 →
      (EcoFlowT.transform_panel_reading d dev home ts).battery_power_w
        = some (-(EcoFlowT.panelBatterySum d))) ∧
    (EcoFlowT.panelBatterySum d = 0 →
      (EcoFlowT.transform_panel_reading d dev home ts).battery_power_w
        = none) ∧
    (0 < EcoFlowT.panelBatterySum d →
      ∃ q, (EcoFlowT.transform_panel_reading d dev home ts).battery_power_w
        = some q ∧ q < 0) ∧
    (EcoFlowT.panelBatterySum d < 0 →
      ∃ q, (EcoFlowT.transform_panel_reading d dev home ts).battery_power_w
        = some q ∧ 0 < q) ∧
    (EcoFlowT.batteryVendorOutput d ≠ 0 →
      (EcoFlowT.transform_battery_reading d dev home ts).power_w
        = -(EcoFlowT.batteryVendorOutput d)) ∧
    (EcoFlowT.batteryVendorOutput d = 0 →
      (EcoFlowT.transform_battery_reading d dev home ts).power_w = 0) ∧
    (0 < EcoFlowT.batteryVendorOutput d →
      (EcoFlowT.transform_battery_reading d dev home ts).power_w < 0) ∧
    (EcoFlowT.batteryVendorOutput d < 0 →
      0 < (EcoFlowT.transform_battery_reading d dev home ts).power_w) := by
  have hpanel : (EcoFlowT.transform_panel_reading d dev home ts).battery_power_w
      = if EcoFlowT.panelBatterySum d ≠ 0
        then some (-(EcoFlowT.panelBatterySum d)) else none := rfl
  have hbat : (EcoFlowT.transform_battery_reading d dev home ts).power_w
      = if EcoFlowT.batteryVendorOutput d ≠ 0
        then -(EcoFlowT.batteryVendorOutput d) else 0 := rfl
  refine ⟨fun h => by simp [hpanel, h], fun h => by simp [hpanel, h],
    fun h => ⟨-(EcoFlowT.panelBatterySum d), by simp [hpanel, ne_of_gt h], by
      simpa using h⟩,
    fun h => ⟨-(EcoFlowT.panelBatterySum d), by simp [hpanel, ne_of_lt h], by
      simpa using h⟩,
    fun h => by simp [hbat, h],
    fun h => by simp [hbat, h],
    fun h => by simp [hbat, ne_of_gt h]; simpa using h,
    fun h => by simp [hbat, ne_of_lt h]; simpa using h⟩

/-- Witness for C9: a payload with 500 W of vendor-positive output power
persists minus 500 in both the panel and the battery row. -/
theorem battery_power_sign_witness :
    (EcoFlowT.transform_panel_reading dSample 1 2 0).battery_power_w
      = some (-500) ∧
    (EcoFlowT.transform_battery_reading dSample 1 2 0).power_w = -500 := by
  have hsum : EcoFlowT.panelBatterySum dSample = 500 := by
    norm_num [EcoFlowT.panelBatterySum, dSample, List.range_succ]
  have hout : EcoFlowT.batteryVendorOutput dSample = 500 := by
    norm_num [EcoFlowT.batteryVendorOutput, dSample]
  exact ⟨((battery_power_sign dSample 1 2 0).1
            (by rw [hsum]; norm_num)).trans (by rw [hsum]),
        ((battery_power_sign dSample 1 2 0).2.2.2.2.1
            (by rw [hout]; norm_num)).trans (by rw [hout])⟩

/-- C1 counterexample: in the state with no tokens at all the access
token is absent, so the claim requires exactly one refresh followed by
the HTTP request; the code instead raises on the missing refresh token
and performs neither a refresh nor a request. -/
theorem oauth_refresh_gate_counterexample :
    Ecobee.needsRefresh 0 ⟨none, none, none⟩ = true ∧
    Ecobee.get_thermostat_data 0 ⟨none, none, none⟩ ⟨"newA", "newR", 3600⟩
      = .error "No refresh token. Run start_pin_auth() first." ∧
    (Ecobee.get_thermostat_data 0 ⟨none, none, none⟩
      ⟨"newA", "newR", 3600⟩).isOk = false :=
  ⟨rfl, rfl, rfl⟩

/-- C1 as amended: provided a refresh token is present, a telemetry fetch
whose state is stale — the current time at or past expiry minus 5
minutes, or the access token or expiry absent — performs exactly one
refresh and then the HTTP request, and a fresh state performs the request
with zero refreshes; without a refresh token the fetch raises before any
refresh or request. -/
theorem oauth_refresh_gate (now : ℤ) (s : Ecobee.TokenState)
    (rt : String) (r : Ecobee.RefreshResponse)
    (hrt : s.refresh_token = some rt) :
    (Ecobee.needsRefresh now s = true →
      Ecobee.get_thermostat_data now s r
        = .ok (Ecobee.refresh_access_token now r s,
               [.refreshCall, .httpGet])) ∧
    (Ecobee.needsRefresh now s = false →
      Ecobee.get_thermostat_data now s r = .ok (s, [.httpGet])) ∧
    (Ecobee.needsRefresh now s = true ↔
      s.access_token = none ∨ s.expires_at = none ∨
        ∃ e, s.expires_at = some e ∧ now ≥ e - 300) := by
  have hno : ¬ s.refresh_token = none := by rw [hrt]; simp
  refine ⟨?_, ?_, ?_⟩
  · intro hstale
    simp [Ecobee.get_thermostat_data, Ecobee.ensure_valid_token, hno, hstale]
  · intro hfresh
    simp [Ecobee.get_thermostat_data, Ecobee.ensure_valid_token, hno, hfresh]
  · cases ha : s.access_token with
    | none => simp [Ecobee.needsRefresh, ha]
    | some a =>
      cases he : s.expires_at with
      | none => simp [Ecobee.needsRefresh, ha, he]
      | some e => simp [Ecobee.needsRefresh, ha, he]

/-- Witness for C1: a stale state 100 seconds inside the 5-minute margin
refreshes once before the request; a fresh state far from expiry issues
the request alone. -/
theorem oauth_refresh_gate_witness :
    Ecobee.get_thermostat_data 900 ⟨some "old", some "ref", some 1000⟩
        ⟨"newA", "newR", 3600⟩
      = .ok (⟨some "newA", some "newR", some 4500⟩,
             [.refreshCall, .httpGet]) ∧
    Ecobee.get_thermostat_data 0 ⟨some "old", some "ref", some 1000⟩
        ⟨"newA", "newR", 3600⟩
      = .ok (⟨some "old", some "ref", some 1000⟩, [.httpGet]) :=
  ⟨((oauth_refresh_gate 900 ⟨some "old", some "ref", some 1000⟩ "ref"
      ⟨"newA", "newR", 3600⟩ rfl).1 (by decide)).trans rfl,
   ((oauth_refresh_gate 0 ⟨some "old", some "ref", some 1000⟩ "ref"
      ⟨"newA", "newR", 3600⟩ rfl).2.1 (by decide)).trans rfl⟩

/-- C3 counterexample: two envelopes with different non-zero codes and
different messages both make the request operation return the bare none
value — the returned failure carries neither the code nor the message, so
it is not an ApiError value exhibiting them. -/
theorem api_error_result_counterexample :
    EcoFlow.make_request_result (0 : ℕ)
        ⟨some (.num 7), some "boom", some 5⟩ = none ∧
    EcoFlow.make_request_result (0 : ℕ)
        ⟨some (.str "8"), some "other", some 5⟩ = none ∧
    (some (EcoFlow.JsonCode.num 7) : Option EcoFlow.JsonCode)
      ≠ some (.str "8") ∧
    (some "boom" : Option String) ≠ some "other" :=
  ⟨by decide, by decide, by decide, by decide⟩

/-- C3 as amended: the operation returns the data object (with an empty
default) precisely when str(code) is the string 0 — which holds for the
string code 0 and for the numeric code 0 — and returns none, carrying no
code or message, for every other code. -/
theorem api_error_result_spec {α : Type} (e : α)
    (body : EcoFlow.Envelope α) :
    (body.code = some (.str "0") ∨ body.code = some (.num 0) →
      EcoFlow.make_request_result e body = some (body.data.getD e)) ∧
    (EcoFlow.pyCodeStr body.code = "0" →
      EcoFlow.make_request_result e body = some (body.data.getD e)) ∧
    (EcoFlow.pyCodeStr body.code ≠ "0" →
      EcoFlow.make_request_result e body = none) := by
  refine ⟨?_, ?_, ?_⟩
  · rintro (hc | hc) <;>
    · have hz : EcoFlow.pyCodeStr body.code = "0" := by rw [hc]; rfl
      simp [EcoFlow.make_request_result, hz]
  · intro hc
    simp [EcoFlow.make_request_result, hc]
  · intro hc
    simp [EcoFlow.make_request_result, hc]

/-- Witness for C3: a numeric zero code returns the data object and the
numeric code 7 envelope returns none. -/
theorem api_error_result_spec_witness :
    EcoFlow.make_request_result (0 : ℕ) ⟨some (.num 0), none, some 42⟩
      = some 42 ∧
    EcoFlow.make_request_result (0 : ℕ) ⟨some (.num 7), some "boom", some 5⟩
      = none :=
  ⟨(api_error_result_spec 0 ⟨some (.num 0), none, some 42⟩).1 (Or.inr rfl),
   (api_error_result_spec 0 ⟨some (.num 7), some "boom", some 5⟩).2.2
     (by decide)⟩

/-- C4 counterexample: with the home and panel seeded but no battery
device row, the source is not skipped — startup resolves it with the
panel identifier substituted for the missing battery identifier, and the
battery reading of a tick is written under that substitute (panel)
device id. -/
theorem startup_substitute_id_counterexample :
    dbNoBat.devices ("SN1" ++ "-BAT") = none ∧
    ((Collector.resolveEcoflowDevice dbNoBat cfg1).map
        (fun i => i.battery_device_id)) = some 2 ∧
    ((Collector.resolveEcoflowDevice dbNoBat cfg1).map
        (fun i => i.panel_device_id)) = some 2 ∧
    dbNoBat.devices "SN1" = some 2 ∧
    ((Collector.resolveEcoflowDevice dbNoBat cfg1).map
        (fun i => (Collector.ecoflow_tick i dZero 0).2.2.device_id))
      = some 2 :=
  ⟨rfl, rfl, rfl, rfl, rfl⟩

/-- C4 as amended: a source whose home or panel device cannot be resolved
(or resolves to untruthy ids) is skipped entirely, and a resolved source
carries exactly the looked-up home and panel identifiers, writing panel
rows under the panel id and battery rows under the battery id; but a
missing battery device row does not skip the source — the battery
identifier then falls back to the panel identifier, a substitute. The
Ecobee loop inserts nothing when its home or device is unresolved. -/
theorem startup_fail_closed (db : Collector.Db)
    (cfg : Collector.EcoflowDeviceCfg) :
    (Collector.truthy (db.homes cfg.home_name) = false ∨
     Collector.truthy (db.devices cfg.device_sn) = false →
      Collector.resolveEcoflowDevice db cfg = none) ∧
    (∀ info, Collector.resolveEcoflowDevice db cfg = some info →
      db.homes cfg.home_name = some info.home_id ∧
      db.devices cfg.device_sn = some info.panel_device_id ∧
      info.battery_device_id
        = (db.devices (cfg.device_sn ++ "-BAT")).getD info.panel_device_id ∧
      ∀ d ts,
        (Collector.ecoflow_tick info d ts).1.device_id
          = info.panel_device_id ∧
        (Collector.ecoflow_tick info d ts).2.2.device_id
          = info.battery_device_id) ∧
    (∀ did ticks, Collector.resolveEcobee db did = none →
      Collector.ecobee_source_inserts db did ticks = 0) ∧
    (∀ did, Collector.truthy (db.homes "test_home") = false →
      Collector.resolveEcobee db did = none) := by
  refine ⟨?_, ?_, ?_, ?_⟩
  · intro h
    rcases h with h | h <;> simp [Collector.resolveEcoflowDevice, h]
  · intro info hres
    unfold Collector.resolveEcoflowDevice at hres
    cases hhome : db.homes cfg.home_name with
    | none => rw [hhome] at hres; simp [Collector.truthy] at hres
    | some hid =>
      cases hpanel : db.devices cfg.device_sn with
      | none => rw [hhome, hpanel] at hres; simp [Collector.truthy] at hres
      | some pid =>
        rw [hhome, hpanel] at hres
        simp only [Collector.truthy] at hres
        by_cases hcond : (hid != 0 && (pid != 0)) = true
        · rw [if_pos hcond] at hres
          have hinfo := Option.some.inj hres
          subst hinfo
          refine ⟨rfl, rfl, ?_, fun d ts => ⟨rfl, rfl⟩⟩
          cases hbat : db.devices (cfg.device_sn ++ "-BAT") <;> simp [hbat]
        · rw [if_neg hcond] at hres
          exact absurd hres (by simp)
  · intro did ticks h
    simp [Collector.ecobee_source_inserts, h]
  · intro did h
    simp [Collector.resolveEcobee, h]

/-- Witness for C4: a missing home skips the EcoFlow source; the fully
seeded database resolves the battery id 3 from its own row and battery
readings go under it; a missing Ecobee home yields zero inserts. -/
theorem startup_fail_closed_witness :
    Collector.resolveEcoflowDevice dbNoBat ⟨"h2", "SN1"⟩ = none ∧
    infoFull.battery_device_id
      = (dbFull.devices ("SN1" ++ "-BAT")).getD infoFull.panel_device_id ∧
    (Collector.ecoflow_tick infoFull dZero 0).2.2.device_id
      = infoFull.battery_device_id ∧
    Collector.ecobee_source_inserts dbNoBat "api9"
      [⟨some thermoA, true⟩] = 0 :=
  ⟨(startup_fail_closed dbNoBat ⟨"h2", "SN1"⟩).1 (Or.inl (by decide)),
   ((startup_fail_closed dbFull cfg1).2.1 infoFull rfl).2.2.1,
   (((startup_fail_closed dbFull cfg1).2.1 infoFull rfl).2.2.2 dZero 0).2,
   (startup_fail_closed dbNoBat cfg1).2.2.1 "api9" [⟨some thermoA, true⟩]
     ((startup_fail_closed dbNoBat cfg1).2.2.2 "api9" (by decide))⟩

/-- C2: the signature is the hex-encoded HMAC-SHA256, under the secret
key, of the canonical string of sorted query pairs followed by the sorted
accessKey/nonce/timestamp triple joined with ampersands; the quota fetch
signs with no query parameters at all, so its signature is independent of
the device serial, which appears only in the request URL query string. -/
theorem hmac_signature_canonical (secret access nonce ts : String)
    (params : List (String × String)) (baseUrl sn : String) :
    (EcoFlow.generate_signature secret access params nonce ts).signature
      = hexOfBytes (hmacSha256 (strBytes secret)
          (strBytes (EcoFlow.specCanonicalString params access nonce ts))) ∧
    (EcoFlow.get_device_quota_req baseUrl sn secret access nonce ts).sign
      = (EcoFlow.generate_signature secret access [] nonce ts).signature ∧
    (∀ sn2,
      (EcoFlow.get_device_quota_req baseUrl sn secret access nonce ts).sign
        = (EcoFlow.get_device_quota_req baseUrl sn2 secret
            access nonce ts).sign) ∧
    (EcoFlow.get_device_quota_req baseUrl sn secret access nonce ts).url
      = baseUrl ++ ("/iot-open/sign/device/quota/all?sn=" ++ sn) := by
  refine ⟨?_, rfl, fun sn2 => rfl, rfl⟩
  show EcoFlow.hmac_sha256
      (EcoFlow.joinAmp
        ((if params ≠ [] then [EcoFlow.get_qstring params] else []) ++
         [EcoFlow.get_qstring (EcoFlow.headersDict access nonce ts)]))
      secret = _
  rw [sign_str_eq_canonical]
  rfl

/-! ## Sanity checks of the string layer of the signing pipeline -/

theorem qstring_sorting_example :
    EcoFlow.get_qstring [("b", "2"), ("a", "1")] = "a=1&b=2" := by decide

theorem canonical_string_example :
    EcoFlow.specCanonicalString [("b", "2"), ("a", "1")] "ak" "n7" "t9"
      = "a=1&b=2&accessKey=ak&nonce=n7&timestamp=t9" := by decide

theorem hex_encoding_example :
    hexOfBytes [186, 120, 5, 255] = "ba7805ff" := by decide

end Pezzrr
